import Mathlib

/-
Shallow embedding of `dyndns_dreamhost.py` (repository Edorka/dyndns-dreamhost).

The script keeps a Dreamhost DNS "A" record in sync with the machine's
current IP.  The embedding models the network, the cache file and the socket
as explicit inputs (a `World`), and Python exceptions as `Except PyErr`.
Line numbers in doc comments refer to `src/dyndns_dreamhost.py`.
-/

set_option linter.unusedVariables false

/-- A DNS record as decoded from the provider's `dns-list_records` JSON
response (lines 125-133): each entry carries at least the string fields
`record`, `type`, `value`, `editable` (the string "0" or "1") and `comment`. -/
structure DNSRecord where
  record : String
  type : String
  value : String
  editable : String
  comment : String
  deriving DecidableEq, Repr

/-- Shape of the provider's parsed JSON body, as far as the script inspects
it: a `result` field that is `"success"` (with a `data` list for
`dns-list_records`) or anything else, or an object lacking the `result` key
altogether (reading `result['result']` then raises `KeyError`). -/
inductive JsonResp where
  | success (data : List DNSRecord)
  | failure (reason : String)
  | noResultKey
  deriving DecidableEq, Repr

/-- Outcome of one HTTP request as seen by `request_json` (lines 68-80):
either `urllib.request.urlopen` raises `URLError`, or the body is not valid
JSON (`json.loads` raises `ValueError`), or a parsed JSON body is obtained. -/
inductive HttpResult where
  | urlError (msg : String)
  | invalidJson
  | json (r : JsonResp)
  deriving DecidableEq, Repr

/-- The Python exceptions that can escape the modelled code paths:
the script's own `ConnectionError` (lines 41-47), `TypeError`
(subscripting `None`, or calling the mis-declared `Log.log`), `KeyError`
(missing JSON key) and `NameError`/`UnboundLocalError` (unbound names). -/
inductive PyErr where
  | connectionError (msg : String)
  | typeError
  | keyError (key : String)
  | nameError (name : String)
  deriving DecidableEq, Repr

/-- One outbound API request, recorded by the operation that issued it with
the arguments that determine its query string. -/
inductive Call where
  | list (editable record ty : Option String)
  | add (record ty value : String)
  | remove (record ty value : String)
  deriving DecidableEq, Repr

/-- The `Log` context manager of lines 50-65: it only remembers whether
logging is enabled. -/
structure Log where
  do_log : Bool
  deriving DecidableEq, Repr

/-- Line 63 declares the method as `def log(msg):`, without a `self`
parameter.  Every bound-method call `logfile.log(m)` therefore passes two
positional arguments (the instance and `m`) to a one-parameter function and
raises `TypeError` before the body is entered, whether or not `do_log` is
set.  The embedding makes every call to this method fail with `TypeError`. -/
def Log.log (self : Log) (msg : String) : Except PyErr Unit :=
  .error .typeError

/-- The function `request_json` of lines 68-80: a transport failure
(`URLError`) is re-raised as the script's `ConnectionError`; a body that is
not valid JSON makes it return `None`; otherwise the parsed JSON is
returned. -/
def request_json (resp : HttpResult) : Except PyErr (Option JsonResp) :=
  match resp with
  | .urlError msg => .error (.connectionError msg)
  | .invalidJson => .ok none
  | .json r => .ok (some r)

/-- The nonce `uuid.uuid5(uuid.NAMESPACE_URL, record)` used by `dyndns_add`
(line 84) and `dyndns_rem` (line 102).  Modelled from the library contract:
`uuid5` is a deterministic (SHA-1 based) hash of the namespace and the name,
so it is modelled as a fixed injective function of the name string. -/
def uuid5NamespaceUrl (name : String) : String :=
  "uuid5:6ba7b811:" ++ name

/-- The nonce `uuid.uuid4()` used by `dyndns_list` (line 117).  Modelled from
the library contract: `uuid4` draws a fresh random token on every call, never
repeating; it is modelled as an injective function of an entropy-source state
that every call advances (the token is a string whose length is the state). -/
def uuid4 (g : Nat) : String × Nat :=
  (String.mk (List.replicate g 'u'), g + 1)

/-- Query parameters of one Dreamhost API request, as assembled into the
`params` dict by `dyndns_add` (lines 84-88), `dyndns_rem` (lines 102-104) and
`dyndns_list` (lines 117-118).  Absent keys are `none`. -/
structure ApiParams where
  key : String
  uuid : String
  cmd : String
  record : Option String
  type : Option String
  value : Option String
  comment : Option String
  deriving DecidableEq, Repr

/-- The `params` dict built by `dyndns_add` (lines 84-88): the nonce is
`uuid5` of the `record` argument alone, and `comment` is included only when
it is non-empty. -/
def dyndns_add_params (key record type value comment : String) : ApiParams :=
  { key := key
    uuid := uuid5NamespaceUrl record
    cmd := "dns-add_record"
    record := some record
    type := some type
    value := some value
    comment := if comment != "" then some comment else none }

/-- The `params` dict built by `dyndns_rem` (lines 102-104): the nonce is
again `uuid5` of the `record` argument alone. -/
def dyndns_rem_params (key record type value : String) : ApiParams :=
  { key := key
    uuid := uuid5NamespaceUrl record
    cmd := "dns-remove_record"
    record := some record
    type := some type
    value := some value
    comment := none }

/-- The `params` dict built by `dyndns_list` (lines 117-118) together with
the advanced entropy state: the nonce is a fresh `uuid4` draw; no filter
reaches the query string (filtering is client-side). -/
def dyndns_list_params (key : String) (g : Nat) : ApiParams × Nat :=
  let u := uuid4 g
  ({ key := key
     uuid := u.1
     cmd := "dns-list_records"
     record := none
     type := none
     value := none
     comment := none }, u.2)

/-- Body of `dyndns_add` after the request (lines 90-98): `request_json`
returning `None` (invalid JSON) makes `result['result']` raise `TypeError`;
a JSON object without a `result` key raises `KeyError`; otherwise the call
returns whether `result['result'] == 'success'`. -/
def dyndns_add (resp : HttpResult) (key record type value comment : String) :
    Except PyErr Bool :=
  match request_json resp with
  | .error e => .error e
  | .ok none => .error .typeError
  | .ok (some .noResultKey) => .error (.keyError "result")
  | .ok (some (.success _)) => .ok true
  | .ok (some (.failure _)) => .ok false

/-- Body of `dyndns_rem` after the request (lines 105-113); same response
handling as `dyndns_add`. -/
def dyndns_rem (resp : HttpResult) (key record type value : String) :
    Except PyErr Bool :=
  match request_json resp with
  | .error e => .error e
  | .ok none => .error .typeError
  | .ok (some .noResultKey) => .error (.keyError "result")
  | .ok (some (.success _)) => .ok true
  | .ok (some (.failure _)) => .ok false

/-- The client-side filtering of `dyndns_list` (lines 127-132): the full
record list from the provider is filtered, in order, by `editable`, then
`record`, then `type`, each only when the corresponding argument is given. -/
def listFilters (data : List DNSRecord) (editable record type : Option String) :
    List DNSRecord :=
  let r1 := match editable with
    | none => data
    | some e => data.filter (fun x => x.editable == e)
  let r2 := match record with
    | none => r1
    | some rec => r1.filter (fun x => x.record == rec)
  match type with
  | none => r2
  | some t => r2.filter (fun x => x.type == t)

/-- Body of `dyndns_list` after the request (lines 125-135): on
`result['result'] == 'success'` the filtered `data` list is returned, on any
other `result` value the function returns `None`; invalid JSON raises
`TypeError` (subscripting `None`) and a missing `result` key raises
`KeyError`. -/
def dyndns_list (resp : HttpResult) (key : String)
    (editable record type : Option String) :
    Except PyErr (Option (List DNSRecord)) :=
  match request_json resp with
  | .error e => .error e
  | .ok none => .error .typeError
  | .ok (some .noResultKey) => .error (.keyError "result")
  | .ok (some (.failure _)) => .ok none
  | .ok (some (.success data)) => .ok (some (listFilters data editable record type))

/-- The removal loop of `dyndns_clean` (lines 141-142): one `dyndns_rem`
call per listed record, passing the hostname and type from the arguments and
the `value` field of the record; the boolean result is ignored, an exception
aborts the loop.  The same `HttpResult` models the provider's reply to every
remove request of the run.  Returns the loop outcome and the issued calls. -/
def cleanRemovals (remResp : HttpResult) (key record type : String) :
    List DNSRecord → Except PyErr Unit × List Call
  | [] => (.ok (), [])
  | r :: rs =>
    match dyndns_rem remResp key record type r.value with
    | .error e => (.error e, [Call.remove record type r.value])
    | .ok _ =>
      match cleanRemovals remResp key record type rs with
      | (o, cs) => (o, Call.remove record type r.value :: cs)

/-- The function `dyndns_clean` of lines 137-142 (with its default
`type='A'` passed explicitly): list the records filtered to
`editable='1'`, the hostname and the type, then remove every returned
record; a `None` listing result skips the loop.  Returns the outcome and the
full sequence of issued calls, the list call first. -/
def dyndns_clean (listResp remResp : HttpResult) (key record type : String) :
    Except PyErr Unit × List Call :=
  let lc := Call.list (some "1") (some record) (some type)
  match dyndns_list listResp key (some "1") (some record) (some type) with
  | .error e => (.error e, [lc])
  | .ok none => (.ok (), [lc])
  | .ok (some rs) =>
    match cleanRemovals remResp key record type rs with
    | (o, cs) => (o, lc :: cs)

/-- Python's `str.rstrip()` with no arguments strips the trailing whitespace
characters space, tab, newline, carriage return, vertical tab and form
feed. -/
def isPySpace (c : Char) : Bool :=
  c == ' ' || c == '\t' || c == '\n' || c == '\r' || c == '\x0b' || c == '\x0c'

/-- Model of `str.rstrip()` as used on the cache file contents (line 201). -/
def rstrip (s : String) : String :=
  String.mk ((s.data.reverse.dropWhile isPySpace).reverse)

/-- Contents written to the cache file by the persist step (line 218):
`ip_cache.write(current_ip + '\n')`. -/
def persistContents (ip : String) : String :=
  ip ++ "\n"

/-- The update decision of lines 209-211, as the boolean expression written
in the source: `current_ip is not None and (cached_ip is None or
cached_ip != current_ip or params.hard)`, with the two locals as optional
strings (`none` standing for Python `None`). -/
def updateDecision (current_ip cached_ip : Option String) (hard : Bool) : Bool :=
  current_ip.isSome && (cached_ip.isNone || cached_ip != current_ip || hard)

/-- The invocation parameters as they come out of argument parsing
(lines 159-172).  Note the source registers `-h` for `--hard` while
`ArgumentParser` already owns `-h` for `--help`; re-running the source as-is
raises `argparse.ArgumentError` at line 169 before any flow starts.  The
flow below is modelled from line 174 onward, on already-parsed parameters
(the CLI surface is an external collaborator in the design). -/
structure Params where
  key : String
  hostname : String
  logfile : String
  clean : Bool
  hard : Bool
  deriving DecidableEq, Repr

/-- The external world one invocation runs against: the cache file contents
(`none`: `open` raises `IOError`, line 195-196), the IP the socket trick
resolves (`none`: `socket.error`, so `get_current_ip` raises
`ConnectionError`, lines 144-155), and the HTTP outcome of the list, add and
remove requests of the run. -/
structure World where
  cacheFile : Option String
  socketIp : Option String
  listResp : HttpResult
  addResp : HttpResult
  remResp : HttpResult
  deriving DecidableEq, Repr

/-- The function `get_current_ip` of lines 144-155: the resolved local
address, or the script's `ConnectionError` when the socket fails. -/
def get_current_ip (w : World) : Except PyErr String :=
  match w.socketIp with
  | none => .error (.connectionError "Error connecting to Google.")
  | some ip => .ok ip

/-- Observable result of one invocation: the process outcome (`ok 0` models
`return 0`; `error e` models an uncaught exception, hence a non-zero exit),
the remote calls issued, in order, and the cache file contents afterwards. -/
structure RunResult where
  outcome : Except PyErr Nat
  calls : List Call
  cache : Option String
  deriving Repr

/-- The flow of `main` (lines 174-221), on parsed parameters, here named
`mainFlow` since Lean reserves the name `main` for executables.

Clean mode (lines 182-192): `dyndns_clean`, then `logfile.log(...)` — which
raises `TypeError` (see `Log.log`) — and, were logging repaired,
`os.remove(ip_cachename)` would raise `NameError` since `os` is never
imported (and `except OSError` does not catch `NameError`).

Normal mode: the cache is read (a read failure logs a warning — raising
`TypeError`), the IP is resolved (a `ConnectionError` is caught and logged —
raising `TypeError`; were logging repaired, line 209 would then raise
`UnboundLocalError` because `current_ip` was never assigned), the update
decision of lines 209-211 is evaluated, and if it holds the source runs
`dyndns_clean`, a log call, `dyndns_add` (its boolean result ignored), the
unconditional cache write of lines 217-218, and a final log call. -/
def mainFlow (w : World) (p : Params) : RunResult :=
  let lg : Log := { do_log := p.logfile != "" }
  if p.clean then
    match dyndns_clean w.listResp w.remResp p.key p.hostname "A" with
    | (.error e, cs) => { outcome := .error e, calls := cs, cache := w.cacheFile }
    | (.ok _, cs) =>
      match lg.log (p.hostname ++ ": Removed A record(s).") with
      | .error e => { outcome := .error e, calls := cs, cache := w.cacheFile }
      | .ok _ => { outcome := .error (.nameError "os"), calls := cs, cache := w.cacheFile }
  else
    let cachedRead : Except PyErr (Option String) :=
      match w.cacheFile with
      | none =>
        match lg.log (p.hostname ++ ": Warning, could not read IP cache file.") with
        | .error e => .error e
        | .ok _ => .ok none
      | some contents => .ok (some (rstrip contents))
    match cachedRead with
    | .error e => { outcome := .error e, calls := [], cache := w.cacheFile }
    | .ok cached_ip =>
      match get_current_ip w with
      | .error _ =>
        match lg.log (p.hostname ++ ": connection error") with
        | .error e => { outcome := .error e, calls := [], cache := w.cacheFile }
        | .ok _ =>
          { outcome := .error (.nameError "current_ip"), calls := [], cache := w.cacheFile }
      | .ok current_ip =>
        if updateDecision (some current_ip) cached_ip p.hard then
          match dyndns_clean w.listResp w.remResp p.key p.hostname "A" with
          | (.error e, cs) => { outcome := .error e, calls := cs, cache := w.cacheFile }
          | (.ok _, cs) =>
            match lg.log (p.hostname ++ ": Removed A record(s).") with
            | .error e => { outcome := .error e, calls := cs, cache := w.cacheFile }
            | .ok _ =>
              match dyndns_add w.addResp p.key p.hostname "A" current_ip "" with
              | .error e =>
                { outcome := .error e
                  calls := cs ++ [Call.add p.hostname "A" current_ip]
                  cache := w.cacheFile }
              | .ok _ =>
                match lg.log (p.hostname ++ ": Set A record.") with
                | .error e =>
                  { outcome := .error e
                    calls := cs ++ [Call.add p.hostname "A" current_ip]
                    cache := some (persistContents current_ip) }
                | .ok _ =>
                  { outcome := .ok 0
                    calls := cs ++ [Call.add p.hostname "A" current_ip]
                    cache := some (persistContents current_ip) }
        else
          { outcome := .ok 0, calls := [], cache := w.cacheFile }

/-- Two consecutive invocations with the same parameters: the second run
starts from the cache file the first run left behind; the network and the
resolved IP are unchanged between the runs. -/
def twoRuns (w : World) (p : Params) : RunResult × RunResult :=
  let r1 := mainFlow w p
  (r1, mainFlow { w with cacheFile := r1.cache } p)

/-- The update decision expression of lines 209-211: on all possible values
of the two locals and the force flag it is true exactly when the current IP
is known and the cached IP is unknown, differs from the current IP, or the
force flag is set. -/
theorem c3_update_decision_iff (current_ip cached_ip : Option String) (hard : Bool) :
    updateDecision current_ip cached_ip hard = true ↔
      current_ip ≠ none ∧ (cached_ip = none ∨ cached_ip ≠ current_ip ∨ hard = true) := by
  cases current_ip <;> cases cached_ip <;> simp [updateDecision]

/-- When every remove request succeeds, the removal loop of `dyndns_clean`
issues exactly one remove call per listed record, in order, carrying that
record's `value`. -/
theorem cleanRemovals_all_success (key host ty : String) (l : List DNSRecord) :
    cleanRemovals (.json (.success [])) key host ty l
      = (.ok (), l.map (fun r => Call.remove host ty r.value)) := by
  induction l with
  | nil => rfl
  | cons r rs ih => simp [cleanRemovals, dyndns_rem, request_json, ih]

/-- The three sequential client-side filters of `dyndns_list`, instantiated
as `dyndns_clean` calls them, equal one conjunctive filter. -/
theorem listFilters_editable_host_a (data : List DNSRecord) (host : String) :
    listFilters data (some "1") (some host) (some "A")
      = data.filter (fun x => x.editable == "1" && x.record == host && x.type == "A") := by
  simp only [listFilters, List.filter_filter]
  exact List.filter_congr (fun x _ => by
    cases h1 : x.editable == "1" <;> cases h2 : x.record == host <;>
      cases h3 : x.type == "A" <;> simp [h1, h2, h3])

/-- Claim C4: for every set of provider records, the Clean step issues the
one list call and then exactly one remove call per record whose `editable`
field is "1", whose `record` field equals the hostname and whose `type` is
"A", in order and carrying that record's `value`; records failing the filter
produce no call, and an empty match set produces zero removals with a
successful (non-error) outcome. -/
theorem c4_clean_removes_exactly_matching (data : List DNSRecord) (key host : String) :
    dyndns_clean (.json (.success data)) (.json (.success [])) key host "A"
      = (.ok (),
         Call.list (some "1") (some host) (some "A") ::
           (data.filter (fun x => x.editable == "1" && x.record == host && x.type == "A")).map
             (fun x => Call.remove host "A" x.value)) := by
  simp [dyndns_clean, dyndns_list, request_json, cleanRemovals_all_success,
    listFilters_editable_host_a]

/-- Claim C1 (refuting evaluation): a clean-mode invocation whose list
request fails at the transport level does not exit 0 — the script's
`ConnectionError` raised inside `dyndns_clean` propagates out of `main`
uncaught (there is no handler around line 183), terminating the process with
a non-zero status. -/
theorem c1_remote_failure_escapes :
    (mainFlow
      { cacheFile := some "203.0.113.5\n", socketIp := some "203.0.113.9",
        listResp := .urlError "boom", addResp := .json (.success []),
        remResp := .json (.success []) }
      { key := "K", hostname := "host.example.com", logfile := "",
        clean := true, hard := false }).outcome
      = .error (.connectionError "boom") := rfl

/-- Claim C2 (refuting evaluation): when IP resolution fails, the run does
not proceed with the update skipped — the `logfile.log` call inside the
`except ConnectionError` handler (line 207) itself raises `TypeError`
(`Log.log` lacks its `self` parameter), aborting the run with no remote call
made and before any update decision is taken. -/
theorem c2_ip_failure_aborts :
    (mainFlow
      { cacheFile := some "203.0.113.5\n", socketIp := none,
        listResp := .json (.success []), addResp := .json (.success []),
        remResp := .json (.success []) }
      { key := "K", hostname := "host.example.com", logfile := "log.txt",
        clean := false, hard := false })
      = { outcome := .error .typeError, calls := [], cache := some "203.0.113.5\n" } := rfl

/-- Claim C5 (refuting evaluation): a clean-mode invocation does list and
remove the matching record and makes no add call, but then crashes with
`TypeError` at the `logfile.log` call of line 184, so the cache entry is
never deleted (and `os.remove` at line 186, had it been reached, raises
`NameError` since `os` is not imported) and 0 is not returned. -/
theorem c5_clean_mode_crash :
    (mainFlow
      { cacheFile := some "203.0.113.5\n", socketIp := some "203.0.113.9",
        listResp := .json (.success
          [{ record := "host.example.com", type := "A", value := "1.2.3.4",
             editable := "1", comment := "" }]),
        addResp := .json (.success []), remResp := .json (.success []) }
      { key := "K", hostname := "host.example.com", logfile := "",
        clean := true, hard := false })
      = { outcome := .error .typeError,
          calls := [Call.list (some "1") (some "host.example.com") (some "A"),
                    Call.remove "host.example.com" "A" "1.2.3.4"],
          cache := some "203.0.113.5\n" } := rfl

/-- Claim C6 (refuting evaluation): on a run whose update decision is true
and whose remote calls would all succeed, the Persist step is never reached:
the run crashes with `TypeError` at the log call of line 213, after Clean
and before Add, so the only call issued is the list call, no add call is
made and the cache file is left unchanged — the source also never consults
the boolean result of `dyndns_add` before the unconditional cache write of
lines 217-218. -/
theorem c6_persist_unreachable :
    (mainFlow
      { cacheFile := some "203.0.113.5\n", socketIp := some "203.0.113.9",
        listResp := .json (.success []), addResp := .json (.success []),
        remResp := .json (.success []) }
      { key := "K", hostname := "host.example.com", logfile := "",
        clean := false, hard := false })
      = { outcome := .error .typeError,
          calls := [Call.list (some "1") (some "host.example.com") (some "A")],
          cache := some "203.0.113.5\n" } := rfl

/-- Claim C8 (refuting evaluation): two consecutive runs with the cached IP
differing from the unchanged current IP and no force flag make zero add
calls, but the first run persists nothing (it crashes at the log call after
Clean), so the second run's update decision is true again and it repeats the
Clean list call instead of issuing no calls. -/
theorem c8_second_run_repeats_clean :
    twoRuns
      { cacheFile := some "203.0.113.5\n", socketIp := some "203.0.113.9",
        listResp := .json (.success []), addResp := .json (.success []),
        remResp := .json (.success []) }
      { key := "K", hostname := "host.example.com", logfile := "",
        clean := false, hard := false }
      = ({ outcome := .error .typeError,
           calls := [Call.list (some "1") (some "host.example.com") (some "A")],
           cache := some "203.0.113.5\n" },
         { outcome := .error .typeError,
           calls := [Call.list (some "1") (some "host.example.com") (some "A")],
           cache := some "203.0.113.5\n" }) := rfl

/-- Claim C7 (counterexample): when the response body is not valid JSON, the
three API operations do not fail with a `ProtocolError` — no such error
exists anywhere in the source — they raise `TypeError`, because
`request_json` returns `None` and the callers subscript it with
`result['result']`. -/
theorem c7_bad_json_type_error :
    dyndns_list .invalidJson "K" (some "1") (some "host.example.com") (some "A")
        = .error .typeError ∧
      dyndns_add .invalidJson "K" "host.example.com" "A" "203.0.113.9" ""
        = .error .typeError ∧
      dyndns_rem .invalidJson "K" "host.example.com" "A" "203.0.113.9"
        = .error .typeError :=
  ⟨rfl, rfl, rfl⟩

/-- Claim C7 (amended): each of the three API operations raises
`ConnectionError` exactly when the transport fails; on a body that is not
valid JSON, `request_json` returns `None` and each operation raises
`TypeError`; on a JSON object lacking the `result` key each operation raises
`KeyError`; when the provider reports a non-success result, `dyndns_list`
returns `None` and `dyndns_add`/`dyndns_rem` return `False` (no exception);
on success, `dyndns_add`/`dyndns_rem` return `True` and `dyndns_list`
returns the client-side filtered record list — empty when nothing
matches. -/
theorem c7_actual_failure_taxonomy (key m reason rec ty v c : String)
    (d : List DNSRecord) (e r t : Option String) :
    dyndns_list (.urlError m) key e r t = .error (.connectionError m) ∧
    dyndns_add (.urlError m) key rec ty v c = .error (.connectionError m) ∧
    dyndns_rem (.urlError m) key rec ty v = .error (.connectionError m) ∧
    request_json .invalidJson = .ok none ∧
    dyndns_list .invalidJson key e r t = .error .typeError ∧
    dyndns_add .invalidJson key rec ty v c = .error .typeError ∧
    dyndns_rem .invalidJson key rec ty v = .error .typeError ∧
    dyndns_list (.json .noResultKey) key e r t = .error (.keyError "result") ∧
    dyndns_add (.json .noResultKey) key rec ty v c = .error (.keyError "result") ∧
    dyndns_rem (.json .noResultKey) key rec ty v = .error (.keyError "result") ∧
    dyndns_list (.json (.failure reason)) key e r t = .ok none ∧
    dyndns_add (.json (.failure reason)) key rec ty v c = .ok false ∧
    dyndns_rem (.json (.failure reason)) key rec ty v = .ok false ∧
    dyndns_list (.json (.success d)) key e r t = .ok (some (listFilters d e r t)) ∧
    dyndns_add (.json (.success d)) key rec ty v c = .ok true ∧
    dyndns_rem (.json (.success d)) key rec ty v = .ok true ∧
    dyndns_list (.json (.success [])) key e r t = .ok (some []) ∧
    (∀ resp : HttpResult,
      (∃ msg, dyndns_list resp key e r t = .error (.connectionError msg)) ↔
        ∃ msg, resp = .urlError msg) ∧
    (∀ resp : HttpResult,
      (∃ msg, dyndns_add resp key rec ty v c = .error (.connectionError msg)) ↔
        ∃ msg, resp = .urlError msg) ∧
    (∀ resp : HttpResult,
      (∃ msg, dyndns_rem resp key rec ty v = .error (.connectionError msg)) ↔
        ∃ msg, resp = .urlError msg) := by
  refine ⟨rfl, rfl, rfl, rfl, rfl, rfl, rfl, rfl, rfl, rfl, rfl, rfl, rfl, rfl, rfl,
    rfl, ?_, ?_, ?_, ?_⟩
  · cases e <;> cases r <;> cases t <;> rfl
  · intro resp
    cases resp with
    | urlError m2 => simp [dyndns_list, request_json]
    | invalidJson => simp [dyndns_list, request_json]
    | json jr => cases jr <;> simp [dyndns_list, request_json]
  · intro resp
    cases resp with
    | urlError m2 => simp [dyndns_add, request_json]
    | invalidJson => simp [dyndns_add, request_json]
    | json jr => cases jr <;> simp [dyndns_add, request_json]
  · intro resp
    cases resp with
    | urlError m2 => simp [dyndns_rem, request_json]
    | invalidJson => simp [dyndns_rem, request_json]
    | json jr => cases jr <;> simp [dyndns_rem, request_json]

/-- Claim C9: the nonce of an add request and of a remove request is
`uuid5` of the hostname alone — the same value for any two such requests
with the same hostname, regardless of key, type, value or comment — while
each list request draws a fresh nonce from the entropy source, so two
successive list calls carry distinct nonces. -/
theorem c9_nonce_policy (k1 k2 r t1 v1 c1 t2 v2 : String) (g : Nat) :
    (dyndns_add_params k1 r t1 v1 c1).uuid = uuid5NamespaceUrl r ∧
    (dyndns_rem_params k2 r t2 v2).uuid = uuid5NamespaceUrl r ∧
    (dyndns_add_params k1 r t1 v1 c1).uuid = (dyndns_rem_params k2 r t2 v2).uuid ∧
    (dyndns_list_params k1 g).1.uuid
      ≠ (dyndns_list_params k2 (dyndns_list_params k1 g).2).1.uuid := by
  refine ⟨rfl, rfl, rfl, ?_⟩
  intro h
  have h2 := congrArg (fun s => s.data.length) h
  simp [dyndns_list_params, uuid4] at h2

/-- Claim C10: for every IP string without leading or trailing Python
whitespace, reading the cache (line 201: `read().rstrip()`) right after the
persist step wrote it (line 218: `write(current_ip + '\n')`) returns exactly
the persisted IP string, while the on-disk contents differ from the bare
string by the trailing newline. -/
theorem c10_cache_round_trip (ip : String)
    (hlead : ip.data.dropWhile isPySpace = ip.data)
    (htrail : ip.data.reverse.dropWhile isPySpace = ip.data.reverse) :
    rstrip (persistContents ip) = ip ∧ persistContents ip ≠ ip := by
  constructor
  · show String.mk (((ip ++ "\n").data.reverse.dropWhile isPySpace).reverse) = ip
    rw [String.data_append]
    have hdn : ("\n" : String).data = ['\n'] := rfl
    rw [hdn, List.reverse_append]
    simp only [List.reverse_cons, List.reverse_nil, List.nil_append,
      List.singleton_append]
    rw [List.dropWhile_cons_of_pos (by decide), htrail, List.reverse_reverse]
  · intro h
    have h2 := congrArg (fun s => s.data.length) h
    simp [persistContents] at h2

/-- Witness for claim C10 at the concrete IP string "203.0.113.5". -/
theorem c10_cache_round_trip_witness :
    rstrip (persistContents "203.0.113.5") = "203.0.113.5" ∧
      persistContents "203.0.113.5" ≠ "203.0.113.5" :=
  c10_cache_round_trip "203.0.113.5" (by decide) (by decide)
